import Mathlib

/-!
Shallow embedding of the `saas-template-stytch` backend (Python/FastAPI) in
Lean 4, for checking the repository's natural-language specification.

Conventions of the embedding:
* Python wall-clock time (`time.time()`) is an `Int` number of seconds,
  passed explicitly as a `now` argument.
* The external Stytch SDK is modelled as a record of functions
  (`StytchProvider`); a call that may raise is an `Except Unit _`.
* The in-memory caches/dicts are association lists (`List (String × _)`)
  for `session_cache`, and a total function `String → List Int` for the
  `defaultdict(list)` rate-limit store.
* Functions that mutate module state return the new state explicitly, and
  additionally return the list of provider calls they performed, so that
  "without calling the provider" is a provable statement.
-/

/-- A Stytch session object (`resp.session`): fields the code reads via
`getattr`/`hasattr` are `Option`s. `started_at` is an epoch timestamp. -/
structure SessionObj where
  user_id : Option String
  session_id : Option String
  started_at : Option Int
deriving DecidableEq

/-- Result of `stytch_client.sessions.authenticate`. -/
structure AuthResp where
  session : Option SessionObj
deriving DecidableEq

/-- A Stytch user-name object: the SDK's `Name` fields are optional, so
`first_name` / `last_name` may be `None`. -/
structure NameObj where
  first_name : Option String
  last_name : Option String
deriving DecidableEq

/-- Result of `stytch_client.users.get`: the e-mail addresses (each reduced
to its `.email` string) and the optional name object. -/
structure UserInfo where
  emails : List String
  name : Option NameObj
deriving DecidableEq

/-- The external Stytch client, as the record of the API calls this code
makes. An `.error ()` result models the SDK raising an exception. -/
structure StytchProvider where
  sessionsAuthenticate : String → Except Unit AuthResp
  sessionsRotate : String → Except Unit String
  usersGet : String → Except Unit UserInfo
  smsSend : String → Except Unit Unit
  smsAuthenticate : String → String → Except Unit Unit
  totpsAuthenticate : String → String → Except Unit Unit

/-- A record of one provider call, used to state "the provider was (not)
called" claims. -/
inductive PCall where
  | authenticate (token : String)
  | rotate (token : String)
  | usersGet (userId : String)
  | smsSend (phone : String)
  | smsAuth (code phone : String)
  | totpAuth (code userId : String)
deriving DecidableEq

/-- The session-data dict built by `_build_session_data` and stored in the
cache. -/
structure SessionData where
  user_id : String
  email : String
  name : Option String
  fingerprint : String
  last_validated : Int
  session_id : Option String
deriving DecidableEq

/-- One value of `session_cache`: `{"data": ..., "timestamp": ...}`. -/
structure CacheEntry where
  data : SessionData
  timestamp : Int
deriving DecidableEq

/-- Embeds `session_cache: Dict[str, Dict]` as an association list. -/
abbrev SessionCache := List (String × CacheEntry)

/-- Embeds `cache_key = f"{session_token}:{fingerprint}"`. -/
def cacheKey (sessionToken fingerprint : String) : String :=
  sessionToken ++ ":" ++ fingerprint

/-- Dictionary lookup `session_cache[cache_key]` / `cache_key in session_cache`. -/
def cacheLookup (c : SessionCache) (k : String) : Option CacheEntry :=
  match c with
  | [] => none
  | (k', e) :: rest => if k' = k then some e else cacheLookup rest k

/-- Embeds `del session_cache[cache_key]` (no-op when the key is absent,
matching the guarded `if cache_key in session_cache: del ...`). -/
def cacheErase (c : SessionCache) (k : String) : SessionCache :=
  c.filter (fun kv => kv.1 ≠ k)

/-- Embeds `session_cache[cache_key] = entry` (replace any existing binding). -/
def cacheInsert (c : SessionCache) (k : String) (e : CacheEntry) : SessionCache :=
  cacheErase c k ++ [(k, e)]

/-- Embeds Python `str.strip()`: drop leading and trailing whitespace
(computable on the character list, unlike `String.trim`). -/
def pyStrip (s : String) : String :=
  ⟨((s.data.dropWhile Char.isWhitespace).reverse.dropWhile Char.isWhitespace).reverse⟩

/-- Embeds Python f-string interpolation of a possibly-`None` value:
`None` renders as the string `None`. -/
def pyFormat (o : Option String) : String :=
  match o with
  | none => "None"
  | some s => s

/-- Embeds `_build_session_data(user_data, fingerprint)` from `auth/service.py`:
fetch the user, derive e-mail and display name. The whole body sits in one
`try`, so a `None` first or last name component — on which `.strip()`
raises `AttributeError` — lands in the same fallback as a failed user
fetch: the synthetic `@stytch.local` e-mail and no name. Returns the data
and the provider calls made. -/
def buildSessionData (p : StytchProvider) (userId : String)
    (sessionId : Option String) (fingerprint : String) (now : Int) :
    SessionData × List PCall :=
  match p.usersGet userId with
  | .ok info =>
      let email := match info.emails with
        | [] => userId ++ "@stytch.local"
        | e :: _ => e
      match info.name with
      | none =>
          (⟨userId, email, none, fingerprint, now, sessionId⟩, [.usersGet userId])
      | some n =>
          match n.first_name, n.last_name with
          | some first, some last =>
              let joined := pyStrip (pyStrip first ++ " " ++ pyStrip last)
              let name : Option String := if joined = "" then none else some joined
              (⟨userId, email, name, fingerprint, now, sessionId⟩, [.usersGet userId])
          | _, _ =>
              (⟨userId, userId ++ "@stytch.local", none, fingerprint, now, sessionId⟩,
               [.usersGet userId])
  | .error _ =>
      (⟨userId, userId ++ "@stytch.local", none, fingerprint, now, sessionId⟩,
       [.usersGet userId])

/-- The body of `validate_session_with_cache` after the cache check in
`auth/service.py`: authenticate against Stytch, build session data, store
it under the cache key. Returns (result, new cache, provider calls). -/
def validateFresh (p : StytchProvider) (sessionToken fingerprint : String)
    (now : Int) (cache : SessionCache) :
    Option SessionData × SessionCache × List PCall :=
  match p.sessionsAuthenticate sessionToken with
  | .error _ => (none, cache, [.authenticate sessionToken])
  | .ok resp =>
      match resp.session with
      | none => (none, cache, [.authenticate sessionToken])
      | some userData =>
          match userData.user_id with
          | none => (none, cache, [.authenticate sessionToken])
          | some uid =>
              if uid = "" then
                (none, cache, [.authenticate sessionToken])
              else
                let built := buildSessionData p uid userData.session_id fingerprint now
                (some built.1,
                 cacheInsert cache (cacheKey sessionToken fingerprint) ⟨built.1, now⟩,
                 .authenticate sessionToken :: built.2)

/-- Embeds `validate_session_with_cache(session_token, fingerprint)` from
`auth/service.py`: serve from cache when younger than 300 s, delete the
entry when older than 900 s, otherwise re-validate against Stytch. -/
def validate_session_with_cache (p : StytchProvider)
    (sessionToken fingerprint : String) (now : Int) (cache : SessionCache) :
    Option SessionData × SessionCache × List PCall :=
  let key := cacheKey sessionToken fingerprint
  match cacheLookup cache key with
  | some cached =>
      let cacheAge := now - cached.timestamp
      if cacheAge < 300 then
        (some cached.data, cache, [])
      else
        let cache1 := if cacheAge > 900 then cacheErase cache key else cache
        validateFresh p sessionToken fingerprint now cache1
  | none => validateFresh p sessionToken fingerprint now cache

/-- Embeds `rotate_session_if_needed(session_token)` from `auth/service.py`:
rotate the token when the session's `started_at` lies more than 1800 s in
the past; any provider error yields `None`. -/
def rotate_session_if_needed (p : StytchProvider) (sessionToken : String)
    (now : Int) : Option String × List PCall :=
  match p.sessionsAuthenticate sessionToken with
  | .error _ => (none, [.authenticate sessionToken])
  | .ok resp =>
      match resp.session with
      | none => (none, [.authenticate sessionToken])
      | some s =>
          match s.started_at with
          | none => (none, [.authenticate sessionToken])
          | some startedAt =>
              if now - startedAt > 1800 then
                match p.sessionsRotate sessionToken with
                | .ok newTok =>
                    (some newTok, [.authenticate sessionToken, .rotate sessionToken])
                | .error _ =>
                    (none, [.authenticate sessionToken, .rotate sessionToken])
              else
                (none, [.authenticate sessionToken])

/-- Outcome of `get_current_user`: which exception is raised, or the
authenticated `User` (its `user_id`, `email`, `name`). -/
inductive AuthOutcome where
  | sessionNotFound
  | invalidSession
  | securityViolation
  | ok (user_id : String) (email : String) (name : Option String)
deriving DecidableEq

/-- Embeds `get_current_user(request)` from `auth/service.py`, with the request
reduced to its session cookie and fingerprint: rotate if needed (dropping
the old cache entry on rotation), validate with the cache, then check the
fingerprint of the returned session data. Returns the outcome and the new
cache. -/
def get_current_user (p : StytchProvider) (cookie : Option String)
    (fingerprint : String) (now : Int) (cache : SessionCache) :
    AuthOutcome × SessionCache :=
  match cookie with
  | none => (.sessionNotFound, cache)
  | some sessionToken =>
      let rotated := (rotate_session_if_needed p sessionToken now).1
      let token := match rotated with
        | some newTok => newTok
        | none => sessionToken
      let cache1 := match rotated with
        | some _ => cacheErase cache (cacheKey sessionToken fingerprint)
        | none => cache
      let validated := validate_session_with_cache p token fingerprint now cache1
      match validated.1 with
      | none => (.invalidSession, validated.2.1)
      | some sessionData =>
          if sessionData.fingerprint ≠ fingerprint then
            (.securityViolation, validated.2.1)
          else
            (.ok sessionData.user_id sessionData.email sessionData.name, validated.2.1)

/-- The inline user-details block of the legacy
`validate_session_with_cache` in `auth.py` (lines 172-208): unlike
`_build_session_data` in `auth/service.py`, the name components are
interpolated into an f-string (a `None` component renders as `None` and
raises nothing), the join is only stripped as a whole, and an empty join
stays a string rather than becoming `None`. -/
def legacyBuildSessionData (p : StytchProvider) (userId : String)
    (sessionId : Option String) (fingerprint : String) (now : Int) :
    SessionData × List PCall :=
  match p.usersGet userId with
  | .ok info =>
      let email := match info.emails with
        | [] => userId ++ "@stytch.local"
        | e :: _ => e
      let name : Option String := match info.name with
        | none => none
        | some n => some (pyStrip (pyFormat n.first_name ++ " " ++ pyFormat n.last_name))
      (⟨userId, email, name, fingerprint, now, sessionId⟩, [.usersGet userId])
  | .error _ =>
      (⟨userId, userId ++ "@stytch.local", none, fingerprint, now, sessionId⟩,
       [.usersGet userId])

/-- The fresh-validation part of the legacy `validate_session_with_cache`
in `auth.py`. -/
def legacyValidateFresh (p : StytchProvider) (sessionToken fingerprint : String)
    (now : Int) (cache : SessionCache) :
    Option SessionData × SessionCache × List PCall :=
  match p.sessionsAuthenticate sessionToken with
  | .error _ => (none, cache, [.authenticate sessionToken])
  | .ok resp =>
      match resp.session with
      | none => (none, cache, [.authenticate sessionToken])
      | some userData =>
          match userData.user_id with
          | none => (none, cache, [.authenticate sessionToken])
          | some uid =>
              if uid = "" then
                (none, cache, [.authenticate sessionToken])
              else
                let built := legacyBuildSessionData p uid userData.session_id fingerprint now
                (some built.1,
                 cacheInsert cache (cacheKey sessionToken fingerprint) ⟨built.1, now⟩,
                 .authenticate sessionToken :: built.2)

/-- Embeds `validate_session_with_cache(session_token, fingerprint)` from the
legacy module `auth.py` (lines 147–220). -/
def legacy_validate_session_with_cache (p : StytchProvider)
    (sessionToken fingerprint : String) (now : Int) (cache : SessionCache) :
    Option SessionData × SessionCache × List PCall :=
  let key := cacheKey sessionToken fingerprint
  match cacheLookup cache key with
  | some cached =>
      let cacheAge := now - cached.timestamp
      if cacheAge < 300 then
        (some cached.data, cache, [])
      else
        let cache1 := if cacheAge > 900 then cacheErase cache key else cache
        legacyValidateFresh p sessionToken fingerprint now cache1
  | none => legacyValidateFresh p sessionToken fingerprint now cache

/-- Result dict of the MFA service functions. -/
structure MFAResult where
  success : Bool
  message : String
deriving DecidableEq

/-- Embeds `MFAChallengeRequest` (pydantic model). -/
structure MFAChallengeRequest where
  user_id : String
  challenge_type : String
deriving DecidableEq

/-- Embeds `MFAVerifyRequest` (pydantic model). -/
structure MFAVerifyRequest where
  user_id : String
  code : String
  challenge_type : String
deriving DecidableEq

/-- Embeds `start_mfa_challenge(request)` from `auth/service.py`: SMS sends a
code via the provider (errors caught), TOTP needs no provider call, any
other type is rejected. -/
def start_mfa_challenge (p : StytchProvider) (req : MFAChallengeRequest) :
    MFAResult × List PCall :=
  if req.challenge_type = "sms" then
    match p.smsSend req.user_id with
    | .ok _ => (⟨true, "SMS code sent"⟩, [.smsSend req.user_id])
    | .error _ => (⟨false, "Failed to send challenge"⟩, [.smsSend req.user_id])
  else if req.challenge_type = "totp" then
    (⟨true, "Enter code from authenticator app"⟩, [])
  else
    (⟨false, "Invalid challenge type"⟩, [])

/-- Embeds `verify_mfa_code(request)` from `auth/service.py`: authenticate the
code via the provider for SMS or TOTP (errors caught), reject any other
type. -/
def verify_mfa_code (p : StytchProvider) (req : MFAVerifyRequest) :
    MFAResult × List PCall :=
  if req.challenge_type = "sms" then
    match p.smsAuthenticate req.code req.user_id with
    | .ok _ => (⟨true, "MFA verified"⟩, [.smsAuth req.code req.user_id])
    | .error _ => (⟨false, "Invalid code"⟩, [.smsAuth req.code req.user_id])
  else if req.challenge_type = "totp" then
    match p.totpsAuthenticate req.code req.user_id with
    | .ok _ => (⟨true, "MFA verified"⟩, [.totpAuth req.code req.user_id])
    | .error _ => (⟨false, "Invalid code"⟩, [.totpAuth req.code req.user_id])
  else
    (⟨false, "Invalid challenge type"⟩, [])

/-- Embeds `rate_limit_store: defaultdict(list)` from `main.py`, as a total
function with default `[]`. -/
abbrev RateStore := String → List Int

/-- Embeds `key = f"{client_ip}:{endpoint}"`. -/
def rateKey (clientIp endpointPath : String) : String :=
  clientIp ++ ":" ++ endpointPath

/-- Embeds `check_rate_limit(client_ip, endpoint)` from `main.py`: drop
timestamps at or before `now - 60`, deny when 10 or more remain, else
record `now`. Returns the verdict and the new store. -/
def check_rate_limit (store : RateStore) (clientIp endpointPath : String)
    (now : Int) : Bool × RateStore :=
  let key := rateKey clientIp endpointPath
  let cleaned := (store key).filter (fun reqTime => now - 60 < reqTime)
  if 10 ≤ cleaned.length then
    (false, fun k => if k = key then cleaned else store k)
  else
    (true, fun k => if k = key then cleaned ++ [now] else store k)

/-- Embeds Python `path.startswith(pre)` on the characters of the strings. -/
def pathStartsWith (pre path : String) : Bool :=
  pre.data.isPrefixOf path.data

/-- Outcome of the rate-limit middleware: run the endpoint handler, or
reject with HTTP 429 before the handler. -/
inductive MwOutcome where
  | handler
  | tooManyRequests429
deriving DecidableEq

/-- Embeds `rate_limit_middleware` from `main.py`: rate limiting applies only to
request paths starting with `/auth/`; every other path goes straight to
the handler. -/
def rate_limit_middleware (store : RateStore) (path clientIp : String)
    (now : Int) : MwOutcome × RateStore :=
  if pathStartsWith "/auth/" path then
    let checked := check_rate_limit store clientIp path now
    if checked.1 then (.handler, checked.2) else (.tooManyRequests429, checked.2)
  else
    (.handler, store)

/-- A row of the `users` table (`db/models.py`). `id` is the UUID primary
key (abstracted to `Nat`), `created_at`/`last_login` are timestamps. -/
structure UserRow where
  id : Nat
  stytch_user_id : String
  email : String
  name : Option String
  created_at : Int
  last_login : Option Int
deriving DecidableEq

/-- Embeds `get_or_create_user(session, *, stytch_user_id, email, name)` from
`db/crud.py`, over the table as a row list. `now` is the database
`func.now()`, `freshId` the id a new row receives. `scalar_one_or_none`
raising on several matching rows is the `.error` case. -/
def get_or_create_user (db : List UserRow) (stytchUserId emailArg : String)
    (nameArg : Option String) (now : Int) (freshId : Nat) :
    Except Unit (UserRow × List UserRow) :=
  match db.filter (fun u => u.stytch_user_id = stytchUserId) with
  | [] =>
      let newUser : UserRow :=
        { id := freshId, stytch_user_id := stytchUserId, email := emailArg,
          name := nameArg, created_at := now, last_login := some now }
      .ok (newUser, db ++ [newUser])
  | [user] =>
      let name1 := match nameArg with
        | none => user.name
        | some n => if user.name ≠ some n then some n else user.name
      let user1 : UserRow :=
        { user with email := emailArg, name := name1, last_login := some now }
      .ok (user1, db.map (fun v => if v.stytch_user_id = stytchUserId then user1 else v))
  | _ => .error ()

/-- Cache well-formedness: every entry was stored under a key of the form
`token:fingerprint` with a colon-free fingerprint (fingerprints are SHA-256
hex digests), and the stored data carries exactly that fingerprint. -/
def CacheInv (c : SessionCache) : Prop :=
  ∀ kv ∈ c, ∃ t f, kv.1 = cacheKey t f ∧ ':' ∉ f.data ∧ kv.2.data.fingerprint = f

/-- The provider authenticates this token: the response carries a session
object with a non-empty `user_id`, so fresh validation succeeds. -/
def AuthOk (p : StytchProvider) (t : String) : Prop :=
  ∃ resp s uid, p.sessionsAuthenticate t = .ok resp ∧ resp.session = some s ∧
    s.user_id = some uid ∧ uid ≠ ""

/-- Scenario driver: validate a list of (token, fingerprint) pairs in
sequence, threading the cache. -/
def validateMany (p : StytchProvider) (prs : List (String × String)) (now : Int)
    (cache : SessionCache) : SessionCache :=
  match prs with
  | [] => cache
  | (t, f) :: rest =>
      validateMany p rest now (validate_session_with_cache p t f now cache).2.1

/-- Forgets the `name` field of session data (the field on which the legacy
and the live implementation differ). -/
def SessionData.sansName (d : SessionData) : SessionData :=
  { d with name := none }

/-- Forgets the `name` fields across a whole cache. -/
def cacheSansNames (c : SessionCache) : SessionCache :=
  c.map (fun kv => (kv.1, ⟨kv.2.data.sansName, kv.2.timestamp⟩))

/-- Forgets the `name` and `email` fields of session data (the two fields
on which the legacy and the live implementation can differ). -/
def SessionData.sansNameEmail (d : SessionData) : SessionData :=
  { d with name := none, email := "" }

/-- Forgets the `name` and `email` fields across a whole cache. -/
def cacheSansNamesEmails (c : SessionCache) : SessionCache :=
  c.map (fun kv => (kv.1, ⟨kv.2.data.sansNameEmail, kv.2.timestamp⟩))

/-- The provider never reports a user name with a missing (`None`) first
or last component — the regime in which `auth/service.py` never hits its
`None.strip()` fallback. -/
def NamesPresent (p : StytchProvider) : Prop :=
  ∀ uid info, p.usersGet uid = .ok info →
    ∀ n, info.name = some n →
      n.first_name.isSome = true ∧ n.last_name.isSome = true

/-- A concrete provider on which every call succeeds: one user with a
session started at epoch 0, e-mail and a first/last name. -/
def okProvider : StytchProvider where
  sessionsAuthenticate := fun _ => .ok ⟨some ⟨some "user-1", some "sess-1", some 0⟩⟩
  sessionsRotate := fun _ => .ok "tok2"
  usersGet := fun _ => .ok ⟨["u@example.com"], some ⟨some "Ada", some "Lovelace"⟩⟩
  smsSend := fun _ => .ok ()
  smsAuthenticate := fun _ _ => .ok ()
  totpsAuthenticate := fun _ _ => .ok ()

/-- A concrete provider whose user record carries a name object with a
`None` first name component (the Stytch SDK allows this): the live module
falls back to the synthetic e-mail while the legacy module formats the
component as `None` and keeps the real e-mail. -/
def noneNameProvider : StytchProvider where
  sessionsAuthenticate := fun _ => .ok ⟨some ⟨some "user-1", some "sess-1", some 0⟩⟩
  sessionsRotate := fun _ => .error ()
  usersGet := fun _ => .ok ⟨["u@example.com"], some ⟨none, some "Lovelace"⟩⟩
  smsSend := fun _ => .error ()
  smsAuthenticate := fun _ _ => .error ()
  totpsAuthenticate := fun _ _ => .error ()

/-- A concrete provider whose user record carries a name object with empty
(but present) first and last name strings (the Stytch API allows this). -/
def emptyNameProvider : StytchProvider where
  sessionsAuthenticate := fun _ => .ok ⟨some ⟨some "user-1", some "sess-1", some 0⟩⟩
  sessionsRotate := fun _ => .error ()
  usersGet := fun _ => .ok ⟨["u@example.com"], some ⟨some "", some ""⟩⟩
  smsSend := fun _ => .error ()
  smsAuthenticate := fun _ _ => .error ()
  totpsAuthenticate := fun _ _ => .error ()

/-- Concrete session data for cache-hit scenarios. -/
def sampleData : SessionData :=
  ⟨"user-1", "u@example.com", some "Ada Lovelace", "fp", 0, some "sess-1"⟩

/-- A concrete cache holding `sampleData` under key `tok:fp` at time 0. -/
def sampleCache : SessionCache :=
  [(cacheKey "tok" "fp", ⟨sampleData, 0⟩)]

/-- A concrete rate-limit store holding ten recent timestamps for one
client against `/health` and against `/auth/me`. -/
def deniedStore : RateStore := fun k =>
  if k = "1.2.3.4:/health" then [1, 2, 3, 4, 5, 6, 7, 8, 9, 10]
  else if k = "1.2.3.4:/auth/me" then [1, 2, 3, 4, 5, 6, 7, 8, 9, 10]
  else []

/-- A concrete pre-existing row of the `users` table. -/
def sampleRow : UserRow :=
  ⟨7, "stytch-1", "old@example.com", some "Old Name", 5, some 6⟩

theorem cacheLookup_erase_self (c : SessionCache) (k : String) :
    cacheLookup (cacheErase c k) k = none := by
  induction c with
  | nil => rfl
  | cons kv rest ih =>
      by_cases h : kv.1 = k
      · simpa [cacheErase, List.filter_cons, h] using ih
      · simpa [cacheErase, List.filter_cons, h, cacheLookup] using ih

theorem cacheErase_of_lookup_none (c : SessionCache) (k : String)
    (h : cacheLookup c k = none) : cacheErase c k = c := by
  induction c with
  | nil => rfl
  | cons kv rest ih =>
      by_cases hk : kv.1 = k
      · simp [cacheLookup, hk] at h
      · have h' : cacheLookup rest k = none := by
          simpa [cacheLookup, hk] using h
        have hrest := ih h'
        simp only [cacheErase, List.filter_cons] at hrest ⊢
        rw [if_pos (by simp [hk]), hrest]

theorem cacheLookup_append_of_none (c : SessionCache) (k k' : String) (e : CacheEntry)
    (h : cacheLookup c k' = none) (hk : k ≠ k') :
    cacheLookup (c ++ [(k, e)]) k' = none := by
  induction c with
  | nil => simp [cacheLookup, hk]
  | cons kv rest ih =>
      by_cases h1 : kv.1 = k'
      · simp [cacheLookup, h1] at h
      · simp only [cacheLookup, h1, if_neg] at h
        simpa [cacheLookup, h1] using ih h

theorem authenticate_mem_validateFresh (p : StytchProvider) (t f : String)
    (now : Int) (cache : SessionCache) :
    PCall.authenticate t ∈ (validateFresh p t f now cache).2.2 := by
  unfold validateFresh
  cases hA : p.sessionsAuthenticate t with
  | error e => simp
  | ok resp =>
      obtain ⟨os⟩ := resp
      cases os with
      | none => simp
      | some ud =>
          obtain ⟨ouid, osid, ost⟩ := ud
          cases ouid with
          | none => simp
          | some uid => by_cases h : uid = "" <;> simp [h]

/-- C1: a cache entry under key `t:f` younger than 300 s (the 5-minute
soft-expiry) is served as-is: `validate_session_with_cache` returns the
stored session data, leaves the cache unchanged, and performs no provider
call. -/
theorem C1_cache_hit_serves_cached (p : StytchProvider) (t f : String)
    (now : Int) (cache : SessionCache) (e : CacheEntry)
    (hlook : cacheLookup cache (cacheKey t f) = some e)
    (hage : now - e.timestamp < 300) :
    validate_session_with_cache p t f now cache = (some e.data, cache, []) := by
  simp only [validate_session_with_cache]
  rw [hlook]
  simp [hage]

/-- Witness for C1: a fresh entry (age 100 s) is served from the cache. -/
theorem C1_cache_hit_serves_cached_witness :
    validate_session_with_cache okProvider "tok" "fp" 100 sampleCache =
      (some sampleData, sampleCache, []) :=
  C1_cache_hit_serves_cached okProvider "tok" "fp" 100 sampleCache
    ⟨sampleData, 0⟩ (by decide) (by decide)

/-- C2: a cache entry under key `t:f` older than 900 s (the 15-minute
window) forces re-validation: the entry is deleted (no longer found in the
intermediate cache), the result is exactly that of a fresh validation on
the erased cache, and the provider's `sessions.authenticate` is called. -/
theorem C2_forced_revalidation (p : StytchProvider) (t f : String)
    (now : Int) (cache : SessionCache) (e : CacheEntry)
    (hlook : cacheLookup cache (cacheKey t f) = some e)
    (hage : now - e.timestamp > 900) :
    validate_session_with_cache p t f now cache =
        validateFresh p t f now (cacheErase cache (cacheKey t f))
      ∧ cacheLookup (cacheErase cache (cacheKey t f)) (cacheKey t f) = none
      ∧ PCall.authenticate t ∈ (validate_session_with_cache p t f now cache).2.2 := by
  have h1 : validate_session_with_cache p t f now cache =
      validateFresh p t f now (cacheErase cache (cacheKey t f)) := by
    simp only [validate_session_with_cache]
    rw [hlook]
    have hnotlt : ¬ now - e.timestamp < 300 := by omega
    simp [hnotlt, hage]
  refine ⟨h1, cacheLookup_erase_self cache (cacheKey t f), ?_⟩
  rw [h1]
  exact authenticate_mem_validateFresh p t f now _

/-- Witness for C2: a 1000-second-old entry forces re-validation. -/
theorem C2_forced_revalidation_witness :
    validate_session_with_cache okProvider "tok" "fp" 1000 sampleCache =
        validateFresh okProvider "tok" "fp" 1000 (cacheErase sampleCache (cacheKey "tok" "fp"))
      ∧ cacheLookup (cacheErase sampleCache (cacheKey "tok" "fp")) (cacheKey "tok" "fp") = none
      ∧ PCall.authenticate "tok" ∈
          (validate_session_with_cache okProvider "tok" "fp" 1000 sampleCache).2.2 :=
  C2_forced_revalidation okProvider "tok" "fp" 1000 sampleCache
    ⟨sampleData, 0⟩ (by decide) (by decide)

/-- C3: `rotate_session_if_needed` returns the provider's rotated token
exactly when the provider reports a session whose `started_at` lies more
than 1800 s in the past and the rotate call succeeds; in every other case
(younger session, no session, no `started_at`, provider error) it returns
`None`, and when the session is not reported as over-age the rotate call
is never performed. -/
theorem C3_rotate_iff_old_session (p : StytchProvider) (tok : String) (now : Int) :
    (∀ newTok, (rotate_session_if_needed p tok now).1 = some newTok ↔
       (∃ resp s startedAt, p.sessionsAuthenticate tok = .ok resp ∧
          resp.session = some s ∧ s.started_at = some startedAt ∧
          now - startedAt > 1800 ∧ p.sessionsRotate tok = .ok newTok))
  ∧ ((¬ ∃ resp s startedAt, p.sessionsAuthenticate tok = .ok resp ∧
        resp.session = some s ∧ s.started_at = some startedAt ∧
        now - startedAt > 1800) →
      (rotate_session_if_needed p tok now).1 = none ∧
      PCall.rotate tok ∉ (rotate_session_if_needed p tok now).2) := by
  constructor
  · intro newTok
    unfold rotate_session_if_needed
    cases hA : p.sessionsAuthenticate tok with
    | error e => simp
    | ok resp =>
        obtain ⟨os⟩ := resp
        cases os with
        | none => simp
        | some ud =>
            obtain ⟨ouid, osid, ost⟩ := ud
            cases ost with
            | none => simp
            | some st =>
                by_cases hOld : now - st > 1800
                · cases hR : p.sessionsRotate tok with
                  | ok nt => simp [hOld]
                  | error e => simp [hOld]
                · simp [hOld]
  · intro hno
    unfold rotate_session_if_needed
    cases hA : p.sessionsAuthenticate tok with
    | error e => simp
    | ok resp =>
        obtain ⟨os⟩ := resp
        cases os with
        | none => simp
        | some ud =>
            obtain ⟨ouid, osid, ost⟩ := ud
            cases ost with
            | none => simp
            | some st =>
                by_cases hOld : now - st > 1800
                · exact absurd ⟨_, _, st, hA, rfl, rfl, hOld⟩ hno
                · simp [hOld]

/-- C5: `check_rate_limit` allows and records the request exactly when
fewer than ten requests for the same `ip:endpoint` key lie within the last
60 seconds; a denied request is not recorded; every surviving timestamp is
younger than 60 seconds; other keys are untouched. -/
theorem C5_check_rate_limit_semantics (store : RateStore) (ip path : String)
    (now : Int) :
    ((check_rate_limit store ip path now).1 = true ↔
        ((store (rateKey ip path)).filter (fun reqTime => now - 60 < reqTime)).length < 10)
  ∧ ((check_rate_limit store ip path now).1 = true →
        (check_rate_limit store ip path now).2 (rateKey ip path) =
          (store (rateKey ip path)).filter (fun reqTime => now - 60 < reqTime) ++ [now])
  ∧ ((check_rate_limit store ip path now).1 = false →
        (check_rate_limit store ip path now).2 (rateKey ip path) =
          (store (rateKey ip path)).filter (fun reqTime => now - 60 < reqTime))
  ∧ (∀ reqTime ∈ (check_rate_limit store ip path now).2 (rateKey ip path),
        now - reqTime < 60)
  ∧ (∀ k, k ≠ rateKey ip path → (check_rate_limit store ip path now).2 k = store k) := by
  by_cases h : 10 ≤ ((store (rateKey ip path)).filter (fun reqTime => now - 60 < reqTime)).length
  · refine ⟨?_, ?_, ?_, ?_, ?_⟩
    · simp [check_rate_limit, h]
    · simp [check_rate_limit, h]
    · intro _
      simp [check_rate_limit, h]
    · intro t ht
      simp [check_rate_limit, h, List.mem_filter] at ht
      omega
    · intro k hk
      simp [check_rate_limit, h, hk]
  · refine ⟨?_, ?_, ?_, ?_, ?_⟩
    · simp [check_rate_limit, h]
      omega
    · intro _
      simp [check_rate_limit, h]
    · simp [check_rate_limit, h]
    · intro t ht
      simp [check_rate_limit, h, List.mem_filter] at ht
      rcases ht with ⟨_, ht⟩ | ht <;> omega
    · intro k hk
      simp [check_rate_limit, h, hk]

/-- Witness for C5 at a concrete store: the key holding ten fresh
timestamps is denied at time 30 and the denial is not recorded. -/
theorem C5_check_rate_limit_semantics_witness :
    ((check_rate_limit deniedStore "1.2.3.4" "/auth/me" 30).1 = true ↔
        ((deniedStore (rateKey "1.2.3.4" "/auth/me")).filter (fun reqTime => 30 - 60 < reqTime)).length < 10)
  ∧ ((check_rate_limit deniedStore "1.2.3.4" "/auth/me" 30).1 = true →
        (check_rate_limit deniedStore "1.2.3.4" "/auth/me" 30).2 (rateKey "1.2.3.4" "/auth/me") =
          (deniedStore (rateKey "1.2.3.4" "/auth/me")).filter (fun reqTime => 30 - 60 < reqTime) ++ [30])
  ∧ ((check_rate_limit deniedStore "1.2.3.4" "/auth/me" 30).1 = false →
        (check_rate_limit deniedStore "1.2.3.4" "/auth/me" 30).2 (rateKey "1.2.3.4" "/auth/me") =
          (deniedStore (rateKey "1.2.3.4" "/auth/me")).filter (fun reqTime => 30 - 60 < reqTime))
  ∧ (∀ reqTime ∈ (check_rate_limit deniedStore "1.2.3.4" "/auth/me" 30).2 (rateKey "1.2.3.4" "/auth/me"),
        30 - reqTime < 60)
  ∧ (∀ k, k ≠ rateKey "1.2.3.4" "/auth/me" →
        (check_rate_limit deniedStore "1.2.3.4" "/auth/me" 30).2 k = deniedStore k) :=
  C5_check_rate_limit_semantics deniedStore "1.2.3.4" "/auth/me" 30

/-- Counterexample to C6: a request to `/health` from a client that already
has ten requests for `/health` recorded within the last 60 seconds still
reaches the handler — the middleware only rate-limits paths starting with
`/auth/`, so health, root, csrf-token and users endpoints are unguarded. -/
theorem C6_counterexample :
    (deniedStore (rateKey "1.2.3.4" "/health")).length = 10
  ∧ (∀ t ∈ deniedStore (rateKey "1.2.3.4" "/health"), 0 < 30 - t ∧ 30 - t < 60)
  ∧ (rate_limit_middleware deniedStore "/health" "1.2.3.4" 30).1 = MwOutcome.handler := by
  refine ⟨?_, ?_, ?_⟩ <;> decide

/-- C6 amended: only paths under `/auth/` sit behind the rate limiter. A
request whose path starts with `/auth/` from a client with ten or more
requests for that path within the last 60 seconds is rejected with 429
before the handler; a request to any other path always reaches its handler
and leaves the store untouched. -/
theorem C6_amended_only_auth_paths (store : RateStore) (path ip : String)
    (now : Int) :
    (pathStartsWith "/auth/" path = true →
       10 ≤ ((store (rateKey ip path)).filter (fun reqTime => now - 60 < reqTime)).length →
       (rate_limit_middleware store path ip now).1 = MwOutcome.tooManyRequests429)
  ∧ (pathStartsWith "/auth/" path = false →
       rate_limit_middleware store path ip now = (MwOutcome.handler, store)) := by
  constructor
  · intro hp hcount
    simp [rate_limit_middleware, hp, check_rate_limit, hcount]
  · intro hp
    simp [rate_limit_middleware, hp]

/-- Witness for the amended C6: the same over-quota client is rejected on
`/auth/me`. -/
theorem C6_amended_only_auth_paths_witness :
    (rate_limit_middleware deniedStore "/auth/me" "1.2.3.4" 30).1 =
      MwOutcome.tooManyRequests429 :=
  (C6_amended_only_auth_paths deniedStore "/auth/me" "1.2.3.4" 30).1
    (by decide) (by decide)

/-- Witness for C3: `okProvider` reports a session started at epoch 0, so
at time 5000 (over 1800 s later) the token is rotated. -/
theorem C3_rotate_iff_old_session_witness :
    (rotate_session_if_needed okProvider "tok" 5000).1 = some "tok2" :=
  ((C3_rotate_iff_old_session okProvider "tok" 5000).1 "tok2").2
    ⟨⟨some ⟨some "user-1", some "sess-1", some 0⟩⟩,
     ⟨some "user-1", some "sess-1", some 0⟩, 0, rfl, rfl, rfl, by decide, rfl⟩

/-- C7: `get_or_create_user` with no matching `stytch_user_id` inserts and
returns a fresh row with the given fields and `last_login` set; with one
matching row it returns that row updated in place — e-mail set to the
given one, name replaced only from a non-`None` argument, `last_login`
bumped — while `id`, `stytch_user_id` and `created_at` are unchanged. -/
theorem C7_get_or_create_user_semantics (db : List UserRow) (suid em : String)
    (nm : Option String) (now : Int) (fid : Nat) :
    ((db.filter (fun v => v.stytch_user_id = suid)) = [] →
       get_or_create_user db suid em nm now fid =
         .ok ({ id := fid, stytch_user_id := suid, email := em, name := nm,
                created_at := now, last_login := some now },
              db ++ [{ id := fid, stytch_user_id := suid, email := em, name := nm,
                       created_at := now, last_login := some now }]))
  ∧ (∀ u, (db.filter (fun v => v.stytch_user_id = suid)) = [u] →
       ∃ u1, get_or_create_user db suid em nm now fid =
           .ok (u1, db.map (fun v => if v.stytch_user_id = suid then u1 else v))
         ∧ u1.email = em
         ∧ (nm = none → u1.name = u.name)
         ∧ (∀ n, nm = some n → u1.name = some n)
         ∧ u1.last_login = some now
         ∧ u1.id = u.id
         ∧ u1.stytch_user_id = u.stytch_user_id
         ∧ u1.created_at = u.created_at) := by
  constructor
  · intro hempty
    simp only [get_or_create_user]
    rw [hempty]
  · intro u hone
    simp only [get_or_create_user]
    rw [hone]
    refine ⟨_, rfl, rfl, ?_, ?_, rfl, rfl, rfl, rfl⟩
    · intro hnone
      simp [hnone]
    · intro n hn
      subst hn
      by_cases hname : u.name = some n <;> simp [hname]

/-- Witness for C7: updating the one matching row changes e-mail, name and
`last_login` and nothing else. -/
theorem C7_get_or_create_user_semantics_witness :
    ∃ u1, get_or_create_user [sampleRow] "stytch-1" "new@example.com" (some "New Name") 50 9 =
        .ok (u1, [sampleRow].map (fun v => if v.stytch_user_id = "stytch-1" then u1 else v))
      ∧ u1.email = "new@example.com"
      ∧ ((some "New Name" : Option String) = none → u1.name = sampleRow.name)
      ∧ (∀ n, (some "New Name" : Option String) = some n → u1.name = some n)
      ∧ u1.last_login = some 50
      ∧ u1.id = sampleRow.id
      ∧ u1.stytch_user_id = sampleRow.stytch_user_id
      ∧ u1.created_at = sampleRow.created_at :=
  (C7_get_or_create_user_semantics [sampleRow] "stytch-1" "new@example.com"
      (some "New Name") 50 9).2 sampleRow (by decide)

/-- C9: the MFA service functions are total (every branch returns a result
dict instead of raising): an unknown challenge type yields the
invalid-type result, a provider error yields the failure result, and a
`success` result arises only from the stated challenge types with the
corresponding provider call succeeding (TOTP challenge start makes no
provider call at all). -/
theorem C9_mfa_totality (p : StytchProvider)
    (creq : MFAChallengeRequest) (vreq : MFAVerifyRequest) :
    (creq.challenge_type ≠ "sms" → creq.challenge_type ≠ "totp" →
       (start_mfa_challenge p creq).1 = ⟨false, "Invalid challenge type"⟩)
  ∧ (vreq.challenge_type ≠ "sms" → vreq.challenge_type ≠ "totp" →
       (verify_mfa_code p vreq).1 = ⟨false, "Invalid challenge type"⟩)
  ∧ (creq.challenge_type = "sms" → p.smsSend creq.user_id = .error () →
       (start_mfa_challenge p creq).1 = ⟨false, "Failed to send challenge"⟩)
  ∧ (vreq.challenge_type = "sms" → p.smsAuthenticate vreq.code vreq.user_id = .error () →
       (verify_mfa_code p vreq).1 = ⟨false, "Invalid code"⟩)
  ∧ (vreq.challenge_type = "totp" → p.totpsAuthenticate vreq.code vreq.user_id = .error () →
       (verify_mfa_code p vreq).1 = ⟨false, "Invalid code"⟩)
  ∧ ((start_mfa_challenge p creq).1.success = true →
       (creq.challenge_type = "sms" ∧ p.smsSend creq.user_id = .ok ())
       ∨ creq.challenge_type = "totp")
  ∧ ((verify_mfa_code p vreq).1.success = true →
       (vreq.challenge_type = "sms" ∧ p.smsAuthenticate vreq.code vreq.user_id = .ok ())
       ∨ (vreq.challenge_type = "totp" ∧ p.totpsAuthenticate vreq.code vreq.user_id = .ok ())) := by
  refine ⟨?_, ?_, ?_, ?_, ?_, ?_, ?_⟩
  · intro h1 h2
    simp [start_mfa_challenge, h1, h2]
  · intro h1 h2
    simp [verify_mfa_code, h1, h2]
  · intro h1 h2
    simp [start_mfa_challenge, h1, h2]
  · intro h1 h2
    simp [verify_mfa_code, h1, h2]
  · intro h1 h2
    simp [verify_mfa_code, h1, h2]
  · intro hs
    by_cases h1 : creq.challenge_type = "sms"
    · refine Or.inl ⟨h1, ?_⟩
      cases hS : p.smsSend creq.user_id with
      | ok u =>
          cases u
          rfl
      | error e =>
          exfalso
          simp [start_mfa_challenge, h1, hS] at hs
    · by_cases h2 : creq.challenge_type = "totp"
      · exact Or.inr h2
      · exfalso
        simp [start_mfa_challenge, h1, h2] at hs
  · intro hs
    by_cases h1 : vreq.challenge_type = "sms"
    · refine Or.inl ⟨h1, ?_⟩
      cases hS : p.smsAuthenticate vreq.code vreq.user_id with
      | ok u =>
          cases u
          rfl
      | error e =>
          exfalso
          simp [verify_mfa_code, h1, hS] at hs
    · by_cases h2 : vreq.challenge_type = "totp"
      · refine Or.inr ⟨h2, ?_⟩
        cases hS : p.totpsAuthenticate vreq.code vreq.user_id with
        | ok u =>
            cases u
            rfl
        | error e =>
            exfalso
            simp [verify_mfa_code, h1, h2, hS] at hs
      · exfalso
        simp [verify_mfa_code, h1, h2] at hs

/-- Witness for C9: an unknown challenge type `email` is rejected without
an exception. -/
theorem C9_mfa_totality_witness :
    (start_mfa_challenge okProvider ⟨"u1", "email"⟩).1 =
      ⟨false, "Invalid challenge type"⟩ :=
  (C9_mfa_totality okProvider ⟨"u1", "email"⟩ ⟨"u1", "123", "email"⟩).1
    (by decide) (by decide)

theorem validate_miss_appends (p : StytchProvider) (t f : String) (now : Int)
    (cache : SessionCache)
    (hmiss : cacheLookup cache (cacheKey t f) = none) (hok : AuthOk p t) :
    ∃ e, (validate_session_with_cache p t f now cache).2.1 =
      cache ++ [(cacheKey t f, e)] := by
  obtain ⟨resp, s, uid, hA, hs, huid, hne⟩ := hok
  refine ⟨⟨(buildSessionData p uid s.session_id f now).1, now⟩, ?_⟩
  simp only [validate_session_with_cache]
  rw [hmiss]
  simp only [validateFresh, hA, hs, huid]
  rw [if_neg hne]
  simp only [cacheInsert]
  rw [cacheErase_of_lookup_none cache _ hmiss]

theorem validateMany_adds_distinct (p : StytchProvider) (now : Int) :
    ∀ (prs : List (String × String)) (cache : SessionCache),
      (∀ pr ∈ prs, AuthOk p pr.1) →
      (prs.map (fun pr => cacheKey pr.1 pr.2)).Nodup →
      (∀ pr ∈ prs, cacheLookup cache (cacheKey pr.1 pr.2) = none) →
      (validateMany p prs now cache).length = cache.length + prs.length
  | [], cache, _, _, _ => by simp [validateMany]
  | (t, f) :: rest, cache, hok, hnodup, hmiss => by
      obtain ⟨e, he⟩ := validate_miss_appends p t f now cache
        (hmiss (t, f) (List.mem_cons_self _ _)) (hok (t, f) (List.mem_cons_self _ _))
      have hnodup' : (rest.map (fun pr => cacheKey pr.1 pr.2)).Nodup := by
        rw [List.map_cons, List.nodup_cons] at hnodup
        exact hnodup.2
      have hhead : cacheKey t f ∉ rest.map (fun pr => cacheKey pr.1 pr.2) := by
        rw [List.map_cons, List.nodup_cons] at hnodup
        exact hnodup.1
      have hrest := validateMany_adds_distinct p now rest (cache ++ [(cacheKey t f, e)])
        (fun pr hm => hok pr (List.mem_cons_of_mem _ hm))
        hnodup'
        (fun pr hm => by
          apply cacheLookup_append_of_none
          · exact hmiss pr (List.mem_cons_of_mem _ hm)
          · intro hEq
            have hmem : cacheKey pr.1 pr.2 ∈ rest.map (fun pr => cacheKey pr.1 pr.2) :=
              List.mem_map_of_mem _ hm
            rw [← hEq] at hmem
            exact hhead hmem)
      simp only [validateMany]
      rw [he, hrest]
      simp only [List.length_append, List.length_cons, List.length_nil]
      omega

/-- C8: the session cache is unbounded — validating any number of sessions
under pairwise-distinct cache keys, each accepted by the provider, grows
the cache by exactly one entry per session: starting empty it ends with
one entry per validated (token, fingerprint) pair, none evicted. -/
theorem C8_cache_unbounded (p : StytchProvider) (prs : List (String × String))
    (now : Int)
    (hok : ∀ pr ∈ prs, AuthOk p pr.1)
    (hnodup : (prs.map (fun pr => cacheKey pr.1 pr.2)).Nodup) :
    (validateMany p prs now []).length = prs.length := by
  have h := validateMany_adds_distinct p now prs [] hok hnodup (fun pr _ => rfl)
  simpa using h

/-- Witness for C8: two fresh validations with distinct keys leave two
cache entries. -/
theorem C8_cache_unbounded_witness :
    (validateMany okProvider [("t1", "f1"), ("t2", "f2")] 0 []).length = 2 :=
  C8_cache_unbounded okProvider [("t1", "f1"), ("t2", "f2")] 0
    (fun pr _ => ⟨⟨some ⟨some "user-1", some "sess-1", some 0⟩⟩,
      ⟨some "user-1", some "sess-1", some 0⟩, "user-1", rfl, rfl, rfl, by decide⟩)
    (by decide)

theorem firstOccSplit {α : Type} {c : α} :
    ∀ (a1 a2 b1 b2 : List α), c ∉ a1 → c ∉ a2 →
      a1 ++ c :: b1 = a2 ++ c :: b2 → a1 = a2 ∧ b1 = b2
  | [], [], b1, b2, _, _, h => by simpa using h
  | [], x :: a2, b1, b2, _, h2, h => by
      simp only [List.nil_append, List.cons_append, List.cons.injEq] at h
      simp only [List.mem_cons, not_or] at h2
      exact absurd h.1 h2.1
  | x :: a1, [], b1, b2, h1, _, h => by
      simp only [List.nil_append, List.cons_append, List.cons.injEq] at h
      simp only [List.mem_cons, not_or] at h1
      exact absurd h.1.symm h1.1
  | x :: a1, y :: a2, b1, b2, h1, h2, h => by
      simp only [List.cons_append, List.cons.injEq] at h
      simp only [List.mem_cons, not_or] at h1 h2
      obtain ⟨hxy, htail⟩ := h
      obtain ⟨ha, hb⟩ := firstOccSplit a1 a2 b1 b2 h1.2 h2.2 htail
      exact ⟨by rw [hxy, ha], hb⟩

theorem stringAppendData (s t : String) : (s ++ t).data = s.data ++ t.data := rfl

theorem cacheKey_fingerprint_inj {t1 f1 t2 f2 : String}
    (h1 : ':' ∉ f1.data) (h2 : ':' ∉ f2.data)
    (h : cacheKey t1 f1 = cacheKey t2 f2) : f1 = f2 := by
  have hd : t1.data ++ ':' :: f1.data = t2.data ++ ':' :: f2.data := by
    have hcongr := congrArg String.data h
    simpa [cacheKey, stringAppendData] using hcongr
  have hrev : f1.data.reverse ++ ':' :: t1.data.reverse =
      f2.data.reverse ++ ':' :: t2.data.reverse := by
    have hcongr := congrArg List.reverse hd
    simpa [List.reverse_append] using hcongr
  have h1r : ':' ∉ f1.data.reverse := by simpa using h1
  have h2r : ':' ∉ f2.data.reverse := by simpa using h2
  have hsplit := firstOccSplit _ _ _ _ h1r h2r hrev
  have hdata : f1.data = f2.data := by
    have hr := hsplit.1
    have := congrArg List.reverse hr
    simpa using this
  exact String.ext hdata

theorem cacheLookup_mem (c : SessionCache) (k : String) (e : CacheEntry)
    (h : cacheLookup c k = some e) : (k, e) ∈ c := by
  induction c with
  | nil => cases h
  | cons kv rest ih =>
      rcases kv with ⟨k', e'⟩
      by_cases hk : k' = k
      · subst hk
        simp only [cacheLookup, if_pos rfl] at h
        injection h with h
        subst h
        exact List.mem_cons_self _ _
      · simp only [cacheLookup, if_neg hk] at h
        exact List.mem_cons_of_mem _ (ih h)

theorem cacheInv_erase {c : SessionCache} (hc : CacheInv c) (k : String) :
    CacheInv (cacheErase c k) := by
  intro kv hm
  exact hc kv (List.mem_of_mem_filter hm)

theorem cacheInv_insert {c : SessionCache} (hc : CacheInv c) (t f : String)
    (e : CacheEntry) (hf : ':' ∉ f.data) (he : e.data.fingerprint = f) :
    CacheInv (cacheInsert c (cacheKey t f) e) := by
  intro kv hm
  rcases List.mem_append.1 hm with hm | hm
  · exact cacheInv_erase hc _ kv hm
  · rw [List.mem_singleton] at hm
    subst hm
    exact ⟨t, f, rfl, hf, he⟩

theorem cacheInv_lookup {c : SessionCache} {t f : String} {e : CacheEntry}
    (hc : CacheInv c) (hf : ':' ∉ f.data)
    (h : cacheLookup c (cacheKey t f) = some e) : e.data.fingerprint = f := by
  obtain ⟨t2, f2, hkey, hf2, hfp⟩ := hc (cacheKey t f, e) (cacheLookup_mem _ _ _ h)
  have hff : f = f2 := cacheKey_fingerprint_inj hf hf2 hkey
  rw [hfp, hff]

theorem buildSessionData_fingerprint (p : StytchProvider) (uid : String)
    (sid : Option String) (f : String) (now : Int) :
    (buildSessionData p uid sid f now).1.fingerprint = f := by
  unfold buildSessionData
  cases p.usersGet uid with
  | error e => rfl
  | ok info =>
      obtain ⟨emails, oname⟩ := info
      cases oname with
      | none => rfl
      | some n =>
          obtain ⟨ofn, oln⟩ := n
          cases ofn with
          | none =>
              cases oln with
              | none => rfl
              | some last => rfl
          | some first =>
              cases oln with
              | none => rfl
              | some last => rfl

theorem validateFresh_inv (p : StytchProvider) (t f : String) (now : Int)
    (cache : SessionCache) (hc : CacheInv cache) (hf : ':' ∉ f.data) :
    CacheInv (validateFresh p t f now cache).2.1 ∧
    ∀ d, (validateFresh p t f now cache).1 = some d → d.fingerprint = f := by
  unfold validateFresh
  cases hA : p.sessionsAuthenticate t with
  | error e => exact ⟨hc, by simp⟩
  | ok resp =>
      obtain ⟨os⟩ := resp
      cases os with
      | none => exact ⟨hc, by simp⟩
      | some ud =>
          obtain ⟨ouid, osid, ost⟩ := ud
          cases ouid with
          | none => exact ⟨hc, by simp⟩
          | some uid =>
              by_cases hne : uid = ""
              · simp only [if_pos hne]
                exact ⟨hc, by simp⟩
              · simp only [if_neg hne]
                constructor
                · exact cacheInv_insert hc t f _ hf
                    (buildSessionData_fingerprint p uid osid f now)
                · intro d hd
                  injection hd with hd
                  rw [← hd]
                  exact buildSessionData_fingerprint p uid osid f now

theorem validate_inv (p : StytchProvider) (t f : String) (now : Int)
    (cache : SessionCache) (hc : CacheInv cache) (hf : ':' ∉ f.data) :
    CacheInv (validate_session_with_cache p t f now cache).2.1 ∧
    ∀ d, (validate_session_with_cache p t f now cache).1 = some d →
      d.fingerprint = f := by
  simp only [validate_session_with_cache]
  cases hL : cacheLookup cache (cacheKey t f) with
  | none => exact validateFresh_inv p t f now cache hc hf
  | some cached =>
      by_cases h3 : now - cached.timestamp < 300
      · simp only [if_pos h3]
        refine ⟨hc, ?_⟩
        intro d hd
        injection hd with hd
        rw [← hd]
        exact cacheInv_lookup hc hf hL
      · simp only [if_neg h3]
        by_cases h9 : now - cached.timestamp > 900
        · simp only [if_pos h9]
          exact validateFresh_inv p t f now _ (cacheInv_erase hc _) hf
        · simp only [if_neg h9]
          exact validateFresh_inv p t f now cache hc hf

/-- C4: on a well-formed cache (every entry keyed `token:fingerprint` with
the data's fingerprint equal to the key's fingerprint component) and a
colon-free fingerprint, `validate_session_with_cache` preserves the
invariant and only ever returns data carrying the requested fingerprint,
so the fingerprint-mismatch branch of `get_current_user` (the
"Session security violation" error) is unreachable. -/
theorem C4_fingerprint_invariant (p : StytchProvider) (t f : String)
    (now : Int) (cache : SessionCache)
    (hc : CacheInv cache) (hf : ':' ∉ f.data) :
    CacheInv (validate_session_with_cache p t f now cache).2.1
  ∧ (∀ d, (validate_session_with_cache p t f now cache).1 = some d →
      d.fingerprint = f)
  ∧ (get_current_user p (some t) f now cache).1 ≠ AuthOutcome.securityViolation := by
  obtain ⟨h1, h2⟩ := validate_inv p t f now cache hc hf
  refine ⟨h1, h2, ?_⟩
  simp only [get_current_user]
  cases hR : (rotate_session_if_needed p t now).1 with
  | none =>
      cases hV : (validate_session_with_cache p t f now cache).1 with
      | none => simp
      | some sd => simp [h2 sd hV]
  | some nt =>
      obtain ⟨h1n, h2n⟩ := validate_inv p nt f now (cacheErase cache (cacheKey t f))
        (cacheInv_erase hc (cacheKey t f)) hf
      cases hV : (validate_session_with_cache p nt f now
          (cacheErase cache (cacheKey t f))).1 with
      | none => simp
      | some sd => simp [h2n sd hV]

/-- Witness for C4: from the empty cache with a hex-digest-style
fingerprint, validation keeps the invariant and the security-violation
branch is not taken. -/
theorem C4_fingerprint_invariant_witness :
    CacheInv (validate_session_with_cache okProvider "tok" "fp" 100 []).2.1
  ∧ (∀ d, (validate_session_with_cache okProvider "tok" "fp" 100 []).1 = some d →
      d.fingerprint = "fp")
  ∧ (get_current_user okProvider (some "tok") "fp" 100 []).1 ≠
      AuthOutcome.securityViolation :=
  C4_fingerprint_invariant okProvider "tok" "fp" 100 []
    (by intro kv hm; exact absurd hm (List.not_mem_nil kv)) (by decide)


/-- Counterexample to C10, refuting equality of the returned session data
at two concrete inputs. With empty (present) first/last name strings,
`auth/service.py` builds `name = None` while the legacy `auth.py` builds
`name = ""`. With a `None` first name component, `auth/service.py` hits
`None.strip()` and falls back to the synthetic e-mail while the legacy
`auth.py` keeps the real e-mail, so even the `email` fields differ. -/
theorem C10_counterexample :
    ((validate_session_with_cache emptyNameProvider "tok" "fp" 0 []).1 ≠
      (legacy_validate_session_with_cache emptyNameProvider "tok" "fp" 0 []).1)
  ∧ ((validate_session_with_cache noneNameProvider "tok" "fp" 0 []).1.map
        SessionData.email ≠
      (legacy_validate_session_with_cache noneNameProvider "tok" "fp" 0 []).1.map
        SessionData.email) := by
  exact ⟨by decide, by decide⟩

theorem build_sansNameEmail_eq (p : StytchProvider) (uid : String)
    (sid : Option String) (f : String) (now : Int) :
    (buildSessionData p uid sid f now).1.sansNameEmail =
      (legacyBuildSessionData p uid sid f now).1.sansNameEmail ∧
    (buildSessionData p uid sid f now).2 =
      (legacyBuildSessionData p uid sid f now).2 := by
  unfold buildSessionData legacyBuildSessionData
  cases p.usersGet uid with
  | error e => exact ⟨rfl, rfl⟩
  | ok info =>
      obtain ⟨emails, oname⟩ := info
      cases oname with
      | none => exact ⟨rfl, rfl⟩
      | some n =>
          obtain ⟨ofn, oln⟩ := n
          cases ofn with
          | none =>
              cases oln with
              | none => exact ⟨rfl, rfl⟩
              | some last => exact ⟨rfl, rfl⟩
          | some first =>
              cases oln with
              | none => exact ⟨rfl, rfl⟩
              | some last => exact ⟨rfl, rfl⟩

theorem build_sansName_eq_of_present (p : StytchProvider) (uid : String)
    (sid : Option String) (f : String) (now : Int)
    (hpres : ∀ info, p.usersGet uid = .ok info →
      ∀ n, info.name = some n →
        n.first_name.isSome = true ∧ n.last_name.isSome = true) :
    (buildSessionData p uid sid f now).1.sansName =
      (legacyBuildSessionData p uid sid f now).1.sansName := by
  unfold buildSessionData legacyBuildSessionData
  cases hU : p.usersGet uid with
  | error e => rfl
  | ok info =>
      obtain ⟨emails, oname⟩ := info
      cases oname with
      | none => rfl
      | some n =>
          obtain ⟨ofn, oln⟩ := n
          obtain ⟨h1, h2⟩ := hpres ⟨emails, some ⟨ofn, oln⟩⟩ hU ⟨ofn, oln⟩ rfl
          cases ofn with
          | none => simp at h1
          | some first =>
              cases oln with
              | none => simp at h2
              | some last => rfl

theorem fresh_sansNameEmail_eq (p : StytchProvider) (t f : String) (now : Int)
    (cache : SessionCache) :
    (validateFresh p t f now cache).1.map SessionData.sansNameEmail =
      (legacyValidateFresh p t f now cache).1.map SessionData.sansNameEmail ∧
    cacheSansNamesEmails (validateFresh p t f now cache).2.1 =
      cacheSansNamesEmails (legacyValidateFresh p t f now cache).2.1 ∧
    (validateFresh p t f now cache).2.2 =
      (legacyValidateFresh p t f now cache).2.2 := by
  unfold validateFresh legacyValidateFresh
  cases hA : p.sessionsAuthenticate t with
  | error e => exact ⟨rfl, rfl, rfl⟩
  | ok resp =>
      obtain ⟨os⟩ := resp
      cases os with
      | none => exact ⟨rfl, rfl, rfl⟩
      | some ud =>
          obtain ⟨ouid, osid, ost⟩ := ud
          cases ouid with
          | none => exact ⟨rfl, rfl, rfl⟩
          | some uid =>
              by_cases hne : uid = ""
              · simp [hne]
              · simp only [if_neg hne]
                obtain ⟨hb1, hb2⟩ := build_sansNameEmail_eq p uid osid f now
                refine ⟨?_, ?_, ?_⟩
                · simpa using hb1
                · simp only [cacheInsert, cacheSansNamesEmails, List.map_append,
                    List.map_cons, List.map_nil, hb1]
                · simp [hb2]

theorem fresh_sansName_eq_of_present (p : StytchProvider) (t f : String)
    (now : Int) (cache : SessionCache) (hpres : NamesPresent p) :
    (validateFresh p t f now cache).1.map SessionData.sansName =
      (legacyValidateFresh p t f now cache).1.map SessionData.sansName ∧
    cacheSansNames (validateFresh p t f now cache).2.1 =
      cacheSansNames (legacyValidateFresh p t f now cache).2.1 := by
  unfold validateFresh legacyValidateFresh
  cases hA : p.sessionsAuthenticate t with
  | error e => exact ⟨rfl, rfl⟩
  | ok resp =>
      obtain ⟨os⟩ := resp
      cases os with
      | none => exact ⟨rfl, rfl⟩
      | some ud =>
          obtain ⟨ouid, osid, ost⟩ := ud
          cases ouid with
          | none => exact ⟨rfl, rfl⟩
          | some uid =>
              by_cases hne : uid = ""
              · simp [hne]
              · simp only [if_neg hne]
                have hb1 := build_sansName_eq_of_present p uid osid f now (hpres uid)
                refine ⟨?_, ?_⟩
                · simpa using hb1
                · simp only [cacheInsert, cacheSansNames, List.map_append,
                    List.map_cons, List.map_nil, hb1]

/-- C10 amended: for every provider behaviour, initial cache, token,
fingerprint and clock, the legacy `auth.py` and the live
`auth/service.py` versions of `validate_session_with_cache` agree on
success/failure, on every returned field except `name` and `email`, on the
cache keys, timestamps and all cached fields except `name` and `email`,
and on the provider calls made. When the provider never reports a name
with a missing (`None`) component, the `email` fields agree too, leaving
`name` as the only possible divergence (stripping and the
empty-name-to-`None` mapping exist only in the live module); with a `None`
component the live module falls back to the synthetic e-mail while the
legacy module keeps the real one. -/
theorem C10_amended_agree_except_name_email (p : StytchProvider) (t f : String)
    (now : Int) (cache : SessionCache) :
    ((validate_session_with_cache p t f now cache).1.map SessionData.sansNameEmail =
       (legacy_validate_session_with_cache p t f now cache).1.map SessionData.sansNameEmail
     ∧ cacheSansNamesEmails (validate_session_with_cache p t f now cache).2.1 =
       cacheSansNamesEmails (legacy_validate_session_with_cache p t f now cache).2.1
     ∧ (validate_session_with_cache p t f now cache).2.2 =
       (legacy_validate_session_with_cache p t f now cache).2.2)
  ∧ (NamesPresent p →
     (validate_session_with_cache p t f now cache).1.map SessionData.sansName =
       (legacy_validate_session_with_cache p t f now cache).1.map SessionData.sansName
     ∧ cacheSansNames (validate_session_with_cache p t f now cache).2.1 =
       cacheSansNames (legacy_validate_session_with_cache p t f now cache).2.1) := by
  constructor
  · simp only [validate_session_with_cache, legacy_validate_session_with_cache]
    cases hL : cacheLookup cache (cacheKey t f) with
    | none => exact fresh_sansNameEmail_eq p t f now cache
    | some cached =>
        by_cases h3 : now - cached.timestamp < 300
        · simp [h3]
        · simp only [if_neg h3]
          by_cases h9 : now - cached.timestamp > 900
          · simp only [if_pos h9]
            exact fresh_sansNameEmail_eq p t f now _
          · simp only [if_neg h9]
            exact fresh_sansNameEmail_eq p t f now cache
  · intro hpres
    simp only [validate_session_with_cache, legacy_validate_session_with_cache]
    cases hL : cacheLookup cache (cacheKey t f) with
    | none => exact fresh_sansName_eq_of_present p t f now cache hpres
    | some cached =>
        by_cases h3 : now - cached.timestamp < 300
        · simp [h3]
        · simp only [if_neg h3]
          by_cases h9 : now - cached.timestamp > 900
          · simp only [if_pos h9]
            exact fresh_sansName_eq_of_present p t f now _ hpres
          · simp only [if_neg h9]
            exact fresh_sansName_eq_of_present p t f now cache hpres

/-- Witness for the amended C10: `okProvider` reports both name components,
so the two implementations agree on everything but the name field. -/
theorem C10_amended_agree_except_name_email_witness :
    (validate_session_with_cache okProvider "tok" "fp" 0 []).1.map SessionData.sansName =
      (legacy_validate_session_with_cache okProvider "tok" "fp" 0 []).1.map SessionData.sansName
  ∧ cacheSansNames (validate_session_with_cache okProvider "tok" "fp" 0 []).2.1 =
      cacheSansNames (legacy_validate_session_with_cache okProvider "tok" "fp" 0 []).2.1 :=
  (C10_amended_agree_except_name_email okProvider "tok" "fp" 0 []).2
    (by
      intro uid info hU n hn
      simp only [okProvider] at hU
      injection hU with hU
      rw [← hU] at hn
      injection hn with hn
      rw [← hn]
      exact ⟨rfl, rfl⟩)
